import Mathlib

/-!
Shallow embedding of the EV charging-station booking system (src/main.cpp).

Machine `float` arithmetic is modelled by exact rationals (`ℚ`); fixed-size
arrays with element counts (`users`/`vehicles`/`bookings` plus `userCount`
etc.) are modelled by the lists formed by their first `count` elements, so
array append corresponds to list append.  The C++ `EnergySource` class
hierarchy (`GridPower`/`SolarPower`, discriminated at runtime via
`dynamic_cast`) is a closed two-variant inductive; a dock's possibly-null
`energySource` pointer is total here because the station constructor
initialises every dock with a source and no code path ever resets one.
Console output is dropped; the numeric payloads of notifications that
matter to the claims (the cancellation penalty) are returned as values.
-/

namespace EVCS

attribute [local semireducible] Rat.mul Rat.add Rat.sub Rat.inv

set_option genSizeOfSpec false

set_option genInjectivity false

/-! ### Constants (src/main.cpp lines 8-26) -/

def MAX_DOCKS : Nat := 5
def MAX_BOOKINGS : Nat := 20

def SLOW : Int := 7
def MEDIUM : Int := 22
def FAST : Int := 50
def SOLAR : Int := 7

def PEAK_START : ℚ := 12
def PEAK_END : ℚ := 18

/-! ### Weather and energy sources (lines 29-77) -/

inductive WeatherCondition : Type
  | sunny
  | cloudy
  | night

inductive EnergySource : Type
  | grid
  | solar
deriving DecidableEq

/-- `GridPower::getRateAdjustment` returns 1.0, `SolarPower::getRateAdjustment` 0.9. -/
def getRateAdjustment : EnergySource → ℚ
  | .grid => 1
  | .solar => 9/10

/-- `getAvailablePower` (lines 59 and 68-75): grid always delivers the base power;
solar delivers full power when sunny, half when cloudy, none at night.
The process-wide `currentWeather` global is passed explicitly. -/
def getAvailablePower (w : WeatherCondition) : EnergySource → ℚ → ℚ
  | .grid, basePower => basePower
  | .solar, basePower =>
    match w with
    | .sunny => basePower
    | .cloudy => basePower * (1/2)
    | .night => 0

/-! ### Records (lines 80-192).  The `name` char array of `User` is kept as a
`String`; the source's truncation to 49 characters is not modelled since no
behaviour depends on the name. -/

structure User : Type where
  userID : Int
  name : String
  isRegistered : Bool
  membershipLevel : Int

structure EV : Type where
  vehicleID : Int
  userID : Int
  batterySOC : ℚ
  batteryCapacity : ℚ
  supportsV2G : Bool

/-- `std::min` on floats: `(b < a) ? b : a`. -/
def fmin (a b : ℚ) : ℚ := if b < a then b else a

/-- `EV::dischargeToGrid` (lines 120-127).  Returns the updated vehicle and the
energy actually discharged. -/
def EV.dischargeToGrid (v : EV) (energy : ℚ) : EV × ℚ :=
  if !v.supportsV2G then (v, 0)
  else
    let energyAvailable := (v.batterySOC / 100) * v.batteryCapacity
    let energyToDischarge := fmin energy energyAvailable
    let soc := v.batterySOC - (energyToDischarge / v.batteryCapacity) * 100
    ({ v with batterySOC := if soc < 0 then 0 else soc }, energyToDischarge)

structure ChargingDock : Type where
  dockID : Int
  powerRating : Int
  isOccupied : Bool
  currentVehicleID : Int
  energySource : EnergySource

structure Booking : Type where
  bookingID : Int
  userID : Int
  vehicleID : Int
  dockID : Int
  stationID : Int
  startTime : ℚ
  duration : ℚ
  isActive : Bool
  cost : ℚ
  energyConsumed : ℚ
  chargingType : Int

/-- `Booking::createBooking` (lines 175-187). -/
def Booking.create (bID uID vID dID sID : Int) (time dur : ℚ) (ctype : Int) : Booking :=
  { bookingID := bID
    userID := uID
    vehicleID := vID
    dockID := dID
    stationID := sID
    startTime := time
    duration := dur
    isActive := true
    cost := 0
    energyConsumed := 0
    chargingType := ctype }

/-! ### Station state (lines 195-220).  `totalOccupiedTime` is the parallel
per-dock-index array of cumulative occupied hours.  The `bookingQueue` is dead
state — nothing in the program ever enqueues into it — so it is omitted. -/

structure ChargingStation : Type where
  docks : List ChargingDock
  users : List User
  vehicles : List EV
  bookings : List Booking
  totalOccupiedTime : List ℚ
  systemStartTime : ℚ
  stationID : Int

/-- The `ChargingStation` constructor (lines 213-220): five docks with fixed
ratings and sources, empty registries and ledger. -/
def initialStation (sID : Int) : ChargingStation :=
  { docks :=
      [ { dockID := 1, powerRating := SLOW, isOccupied := false, currentVehicleID := -1, energySource := .grid }
      , { dockID := 2, powerRating := SLOW, isOccupied := false, currentVehicleID := -1, energySource := .solar }
      , { dockID := 3, powerRating := MEDIUM, isOccupied := false, currentVehicleID := -1, energySource := .grid }
      , { dockID := 4, powerRating := MEDIUM, isOccupied := false, currentVehicleID := -1, energySource := .solar }
      , { dockID := 5, powerRating := FAST, isOccupied := false, currentVehicleID := -1, energySource := .grid } ]
    users := []
    vehicles := []
    bookings := []
    totalOccupiedTime := [0, 0, 0, 0, 0]
    systemStartTime := 0
    stationID := sID }

/-- In-place update of the first list element satisfying `p` (the C++ loops
mutate the first matching array slot and `break`). -/
def updateFirst (p : α → Bool) (f : α → α) : List α → List α
  | [] => []
  | x :: xs => if p x then f x :: xs else x :: updateFirst p f xs

/-- In-place update of the element at index `i` (used for `totalOccupiedTime[dockIndex] += ...`). -/
def modifyAt (l : List ℚ) (i : Nat) (f : ℚ → ℚ) : List ℚ :=
  match l.get? i with
  | some v => l.set i (f v)
  | none => l

/-! ### Allocation engine (lines 270-404) -/

/-- `ChargingStation::isCriticalBooking` (lines 270-286): Premium membership or
battery SOC below 20% (SOC defaults to 0 when the vehicle is not found). -/
def isCriticalBooking (st : ChargingStation) (uID vID : Int) : Bool :=
  let isPremium := st.users.any (fun u => u.userID == uID && u.membershipLevel == 1)
  let soc : ℚ :=
    ((st.vehicles.find? (fun v => v.vehicleID == vID)).map (fun v => v.batterySOC)).getD 0
  isPremium || decide (soc < 20)

/-- The peak-window test `startTime >= PEAK_START && startTime < PEAK_END`,
written identically at lines 307, 378 and 470. -/
def isPeakHour (t : ℚ) : Bool :=
  decide (PEAK_START ≤ t) && decide (t < PEAK_END)

/-- `ChargingStation::isDockAvailable` (lines 288-304): no active booking on
the dock may overlap the half-open window `[startTime, startTime+duration)`;
the conflict test is `startTime < bEnd && newEnd > bStart`. -/
def isDockAvailable (st : ChargingStation) (dockID : Int) (startTime duration : ℚ) : Bool :=
  st.bookings.all fun b =>
    !(b.isActive && b.dockID == dockID &&
      (decide (startTime < b.startTime + b.duration) &&
       decide (startTime + duration > b.startTime)))

/-- The candidate (`suitableDocks`) collection loop of
`ChargingStation::findAvailableDock` (lines 310-320): a dock qualifies when it
is not flagged occupied, its environment-adjusted available power covers the
requested rating, it is solar-backed if solar charging was requested, and no
active booking on it overlaps the window. -/
def suitableDocks (w : WeatherCondition) (st : ChargingStation) (powerRating : Int)
    (startTime duration : ℚ) (isSolarCharging : Bool) : List Int :=
  (st.docks.filter fun d =>
      !d.isOccupied &&
      decide ((powerRating : ℚ) ≤ getAvailablePower w d.energySource (d.powerRating : ℚ)) &&
      (!isSolarCharging || decide (d.energySource = EnergySource.solar)) &&
      isDockAvailable st d.dockID startTime duration).map (fun d => d.dockID)

/-- The solar-preference scan of `findAvailableDock` (lines 326-334): does some
dock with this ID have a solar source? -/
def dockIsSolar (st : ChargingStation) (id : Int) : Bool :=
  st.docks.any (fun d => d.dockID == id && decide (d.energySource = EnergySource.solar))

/-- The selection step of `findAvailableDock` (lines 322-335): `-1` when there
is no candidate; when the window is peak and the request is not solar, the
first solar-backed candidate wins if one exists; otherwise the first
candidate in dock order. -/
def pickDock (st : ChargingStation) (preferSolar : Bool) : List Int → Int
  | [] => -1
  | first :: rest =>
    if preferSolar then
      match (first :: rest).find? (dockIsSolar st) with
      | some id => id
      | none => first
    else first

/-- `ChargingStation::findAvailableDock` (lines 306-336): collect candidates,
then select with the peak-hour solar preference. -/
def findAvailableDock (w : WeatherCondition) (st : ChargingStation) (powerRating : Int)
    (startTime duration : ℚ) (isSolarCharging : Bool) : Int :=
  pickDock st (isPeakHour startTime && !isSolarCharging)
    (suitableDocks w st powerRating startTime duration isSolarCharging)

/-- `userExists` scan of `createBooking` (lines 359-364). -/
def userExists (st : ChargingStation) (uID : Int) : Bool :=
  st.users.any (fun u => u.userID == uID && u.isRegistered)

/-- `vehicleExists` scan of `createBooking` (lines 365-370): the vehicle must
carry the requesting user's ID. -/
def vehicleExists (st : ChargingStation) (vID uID : Int) : Bool :=
  st.vehicles.any (fun v => v.vehicleID == vID && v.userID == uID)

/-- Line 376: the very first booking request to pass the early checks anchors
`systemStartTime` at its raw requested start time. -/
def anchorSet (st : ChargingStation) (startTime : ℚ) : ChargingStation :=
  if st.bookings.length == 0 then { st with systemStartTime := startTime } else st

/-- Lines 378-383: a peak-hour request that is not critical is deferred to
`PEAK_END`; anything else keeps its literal start time. -/
def adjStart (st : ChargingStation) (uID vID : Int) (startTime : ℚ) : ℚ :=
  if isPeakHour startTime && !isCriticalBooking st uID vID then PEAK_END else startTime

/-- `ChargingStation::createBooking` (lines 348-404): capacity, time/duration
and registry checks; anchor `systemStartTime` on the first request; peak
deferral; dock search at the adjusted window; on success append the Active
booking (ID = new count) and mark the chosen dock occupied. -/
def createBooking (w : WeatherCondition) (st : ChargingStation) (uID vID : Int)
    (startTime duration : ℚ) (powerRating chargingType : Int) : Bool × ChargingStation :=
  if MAX_BOOKINGS ≤ st.bookings.length then (false, st)
  else if startTime < 0 ∨ 24 ≤ startTime ∨ duration ≤ 0 then (false, st)
  else if !(userExists st uID && vehicleExists st vID uID) then (false, st)
  else
    let st1 := anchorSet st startTime
    let adjustedStartTime := adjStart st1 uID vID startTime
    let isSolarCharging := chargingType == 4
    let dockID := findAvailableDock w st1 powerRating adjustedStartTime duration isSolarCharging
    if dockID == -1 then (false, st1)
    else
      (true, { st1 with
        bookings := st1.bookings ++
          [Booking.create ((st1.bookings.length : Int) + 1) uID vID dockID st1.stationID
            adjustedStartTime duration chargingType]
        docks := updateFirst (fun d => d.dockID == dockID)
          (fun d => { d with isOccupied := true, currentVehicleID := vID }) st1.docks })

/-- The booking-request front end (main, case 3, lines 763-773): maps the
charging-type code to its power rating and rejects unrecognised codes before
invoking `createBooking`. -/
def requestBooking (w : WeatherCondition) (st : ChargingStation) (uID vID : Int)
    (startTime duration : ℚ) (chargingType : Int) : Bool × ChargingStation :=
  if chargingType == 1 then createBooking w st uID vID startTime duration SLOW chargingType
  else if chargingType == 2 then createBooking w st uID vID startTime duration MEDIUM chargingType
  else if chargingType == 3 then createBooking w st uID vID startTime duration FAST chargingType
  else if chargingType == 4 then createBooking w st uID vID startTime duration SOLAR chargingType
  else (false, st)

/-- The cancellation-penalty schedule of `cancelBooking` (lines 409-412). -/
def penaltyFor (timeToStart : ℚ) : ℚ :=
  if timeToStart < 1 then 5 else if timeToStart < 4 then 2 else 0

/-- `ChargingStation::cancelBooking` (lines 406-425): acts on the first Active
booking with the given ID (otherwise a no-op), charges the flat penalty based
on `startTime - systemStartTime`, deactivates the booking and frees its dock.
The returned `Option ℚ` is the penalty the user is notified of. -/
def cancelBooking (st : ChargingStation) (bookingID : Int) : ChargingStation × Option ℚ :=
  match st.bookings.find? (fun b => b.bookingID == bookingID && b.isActive) with
  | none => (st, none)
  | some b =>
    let penalty := penaltyFor (b.startTime - st.systemStartTime)
    ({ st with
        bookings := updateFirst (fun x => x.bookingID == bookingID && x.isActive)
          (fun x => { x with isActive := false }) st.bookings
        docks := updateFirst (fun d => d.dockID == b.dockID)
          (fun d => { d with isOccupied := false, currentVehicleID := -1 }) st.docks },
     some penalty)

/-! ### Billing engine (lines 438-505) -/

/-- Base rate per kWh by charging type (lines 459-463): Slow 0.2, Medium 0.3,
Fast 0.4, Solar 0.15, and 0 for any other code. -/
def baseRate (chargingType : Int) : ℚ :=
  if chargingType == 1 then 2/10
  else if chargingType == 2 then 3/10
  else if chargingType == 3 then 4/10
  else if chargingType == 4 then 15/100
  else 0

/-- The rate pipeline of `completeBooking` (lines 459-473), in source order:
base rate, solar-type discount ×0.85, peak surcharge ×1.2 on the stored start
time, then the energy source's rate adjustment. -/
def sessionRate (source : EnergySource) (chargingType : Int) (startTime : ℚ) : ℚ :=
  let r1 := baseRate chargingType
  let r2 := if chargingType == 4 then r1 * (85/100) else r1
  let r3 := if isPeakHour startTime then r2 * (12/10) else r2
  r3 * getRateAdjustment source

/-- The battery update of `completeBooking` (lines 484-490): add
`energy / capacity * 100` to the SOC, clamped above at 100. -/
def chargeVehicle (v : EV) (energy : ℚ) : EV :=
  let soc := v.batterySOC + (energy / v.batteryCapacity) * 100
  { v with batterySOC := if 100 < soc then 100 else soc }

/-- `ChargingStation::completeBooking` (lines 438-505): acts on the first
Active booking with the given ID (otherwise a no-op): deactivate it, free its
dock; if the dock is missing, stop there (defensive branch, lines 451-454);
otherwise energy = current available power × duration, accumulate the duration
into the dock's occupied-hours slot, price via `sessionRate`, apply the
Premium discount ×0.85 to the cost, record cost and energy on the booking and
charge the vehicle's battery. -/
def completeBooking (w : WeatherCondition) (st : ChargingStation) (bookingID : Int) :
    ChargingStation :=
  match st.bookings.find? (fun b => b.bookingID == bookingID && b.isActive) with
  | none => st
  | some b =>
    match st.docks.find? (fun d => d.dockID == b.dockID) with
    | none =>
      { st with
          bookings := updateFirst (fun x => x.bookingID == bookingID && x.isActive)
            (fun x => { x with isActive := false }) st.bookings }
    | some dock =>
      let dockIndex := st.docks.findIdx (fun d => d.dockID == b.dockID)
      let energy := getAvailablePower w dock.energySource (dock.powerRating : ℚ) * b.duration
      let rate := sessionRate dock.energySource b.chargingType b.startTime
      let cost0 := energy * rate
      let cost :=
        if st.users.any (fun u => u.userID == b.userID && u.membershipLevel == 1) then
          cost0 * (85/100)
        else cost0
      { st with
          bookings := updateFirst (fun x => x.bookingID == bookingID && x.isActive)
            (fun x => { x with isActive := false, energyConsumed := energy, cost := cost })
            st.bookings
          docks := updateFirst (fun d => d.dockID == b.dockID)
            (fun d => { d with isOccupied := false, currentVehicleID := -1 }) st.docks
          totalOccupiedTime := modifyAt st.totalOccupiedTime dockIndex (fun h => h + b.duration)
          vehicles := updateFirst (fun v => v.vehicleID == b.vehicleID)
            (fun v => chargeVehicle v energy) st.vehicles }

/-- The V2G menu action (main, case 9, lines 810-832): discharge the first
vehicle with the given ID; report 0 when it is not found. -/
def stationDischargeToGrid (st : ChargingStation) (vID : Int) (energy : ℚ) :
    ChargingStation × ℚ :=
  match st.vehicles.find? (fun v => v.vehicleID == vID) with
  | none => (st, 0)
  | some v =>
    let vehicles := updateFirst (fun x => x.vehicleID == vID)
      (fun x => (x.dischargeToGrid energy).1) st.vehicles
    ({ st with vehicles := vehicles }, (v.dischargeToGrid energy).2)

/-- The process-wide weather plus one station, for the operator's
`setWeather` action (main, case 11, lines 842-854). -/
structure World : Type where
  weather : WeatherCondition
  station : ChargingStation

/-- Changing the weather touches only the process-wide weather value; no
station state is modified. -/
def setWeather (wd : World) (c : WeatherCondition) : World :=
  { wd with weather := c }

/-! ### Concrete states used to evaluate the theorems on explicit inputs -/

/-- A Regular (non-Premium) registered user. -/
def cxUser : User := { userID := 1, name := "A", isRegistered := true, membershipLevel := 0 }

/-- A vehicle owned by user 1 with a healthy battery (SOC 50, capacity 40). -/
def cxEV1 : EV := { vehicleID := 1, userID := 1, batterySOC := 50, batteryCapacity := 40, supportsV2G := false }

/-- A V2G-capable vehicle with SOC 50 and capacity 10. -/
def cxEVd : EV := { vehicleID := 1, userID := 1, batterySOC := 50, batteryCapacity := 10, supportsV2G := true }

/-- A fresh station with user 1 and vehicle 1 registered and no bookings. -/
def cxStBase : ChargingStation :=
  { initialStation 1 with users := [cxUser], vehicles := [cxEV1] }

/-- An Active Slow booking on dock 1 over the window `[0, 1)`. -/
def cxBk : Booking := Booking.create 1 1 1 1 1 0 1 1

/-- `cxStBase` after that booking: dock 1 is flagged occupied and the ledger
holds the Active booking `cxBk` on the window `[0, 1)`. -/
def cxSt3 : ChargingStation :=
  { cxStBase with
    docks := updateFirst (fun d => d.dockID == 1)
      (fun d => { d with isOccupied := true, currentVehicleID := 1 }) (initialStation 1).docks
    bookings := [cxBk] }

/-- Dock 1 of `cxSt3`: the Slow Grid dock, occupied by vehicle 1. -/
def cxDock1o : ChargingDock :=
  { dockID := 1, powerRating := SLOW, isOccupied := true, currentVehicleID := 1,
    energySource := .grid }

/-- The half-open interval conflict predicate of `isDockAvailable` (line 298):
`[s1, s1+d1)` and `[s2, s2+d2)` conflict iff `s1 < s2+d2 ∧ s2 < s1+d1`. -/
def intervalConflict (s1 d1 s2 d2 : ℚ) : Prop :=
  s1 < s2 + d2 ∧ s2 < s1 + d1

/-- Conflict between the stored windows of two bookings. -/
def bookingConflict (a b : Booking) : Prop :=
  intervalConflict a.startTime a.duration b.startTime b.duration

/-- The claimed ledger invariant: for every dock, the Active bookings
referencing it have pairwise non-overlapping half-open windows. -/
def NoOverlapInv (st : ChargingStation) : Prop :=
  ∀ dID : Int,
    (st.bookings.filter (fun b => b.isActive && b.dockID == dID)).Pairwise
      (fun a b => ¬ bookingConflict a b)

/-- The candidate set as the spec's claim words it (for comparison with the
source's `suitableDocks`): every dock whose environment-adjusted available
power covers the request, Solar-bound if solar charging was requested, and
with no overlapping active booking — with no condition on the dock's
`occupied` flag. -/
def specCandidates (w : WeatherCondition) (st : ChargingStation) (powerRating : Int)
    (startTime duration : ℚ) (isSolarCharging : Bool) : List Int :=
  (st.docks.filter fun d =>
      decide ((powerRating : ℚ) ≤ getAvailablePower w d.energySource (d.powerRating : ℚ)) &&
      (!isSolarCharging || decide (d.energySource = EnergySource.solar)) &&
      isDockAvailable st d.dockID startTime duration).map (fun d => d.dockID)

/-! ### List helper lemmas for `updateFirst` and `find?` -/

theorem updateFirst_append_left {α} {p : α → Bool} {f : α → α} {l₁ : List α} (l₂ : List α)
    (h : ∀ x ∈ l₁, p x = false) :
    updateFirst p f (l₁ ++ l₂) = l₁ ++ updateFirst p f l₂ := by
  induction l₁ with
  | nil => rfl
  | cons x xs ih =>
    have hx : p x = false := h x (by simp)
    simp [updateFirst, hx, ih fun y hy => h y (by simp [hy])]

theorem find?_append_left {α} {p : α → Bool} {l₁ : List α} (l₂ : List α)
    (h : ∀ x ∈ l₁, p x = false) :
    (l₁ ++ l₂).find? p = l₂.find? p := by
  induction l₁ with
  | nil => rfl
  | cons x xs ih =>
    have hx : p x = false := h x (by simp)
    simp [List.find?, hx, ih fun y hy => h y (by simp [hy])]

theorem filter_updateFirst_sublist {α} (p q : α → Bool) (f : α → α)
    (hf : ∀ x, q (f x) = false) (l : List α) :
    List.Sublist ((updateFirst p f l).filter q) (l.filter q) := by
  induction l with
  | nil => simp [updateFirst]
  | cons x xs ih =>
    by_cases hp : p x = true
    · have h1 : updateFirst p f (x :: xs) = f x :: xs := by simp [updateFirst, hp]
      rw [h1, List.filter_cons]
      simp only [hf, Bool.false_eq_true, if_false]
      by_cases hq : q x = true
      · simp only [List.filter_cons, hq, if_true]
        exact List.Sublist.cons x (List.Sublist.refl _)
      · simp only [Bool.not_eq_true] at hq
        simp only [List.filter_cons, hq, Bool.false_eq_true, if_false]
        exact List.Sublist.refl _
    · have h1 : updateFirst p f (x :: xs) = x :: updateFirst p f xs := by simp [updateFirst, hp]
      rw [h1, List.filter_cons, List.filter_cons]
      by_cases hq : q x = true
      · simp only [hq, if_true]
        exact List.Sublist.cons₂ x ih
      · simp only [Bool.not_eq_true] at hq
        simp only [hq, Bool.false_eq_true, if_false]
        exact ih

theorem find?_updateFirst {α} {p : α → Bool} {f : α → α}
    (hp : ∀ x, p (f x) = p x) (l : List α) :
    (updateFirst p f l).find? p = (l.find? p).map f := by
  induction l with
  | nil => rfl
  | cons x xs ih =>
    by_cases hx : p x = true
    · simp [updateFirst, hx, List.find?, hp]
    · simp only [Bool.not_eq_true] at hx
      simp [updateFirst, hx, List.find?, ih]

/-! ### Characterisations of the allocation predicates -/

theorem isDockAvailable_eq_true {st : ChargingStation} {dID : Int} {t dur : ℚ} :
    isDockAvailable st dID t dur = true ↔
      ∀ b ∈ st.bookings, b.isActive = true → b.dockID = dID →
        ¬ intervalConflict t dur b.startTime b.duration := by
  simp only [isDockAvailable, List.all_eq_true, intervalConflict, gt_iff_lt]
  refine forall₂_congr fun b hb => ?_
  by_cases hact : b.isActive = true <;>
    by_cases hdock : b.dockID = dID <;>
    by_cases h1 : t < b.startTime + b.duration <;>
    by_cases h2 : b.startTime < t + dur <;>
    simp [hact, hdock, h1, h2]

theorem suitableDocks_mem {w : WeatherCondition} {st : ChargingStation} {p : Int}
    {t dur : ℚ} {sol : Bool} {id : Int} :
    id ∈ suitableDocks w st p t dur sol ↔
      ∃ d ∈ st.docks, d.dockID = id ∧ d.isOccupied = false ∧
        (p : ℚ) ≤ getAvailablePower w d.energySource (d.powerRating : ℚ) ∧
        (sol = true → d.energySource = EnergySource.solar) ∧
        isDockAvailable st d.dockID t dur = true := by
  simp only [suitableDocks, List.mem_map, List.mem_filter, Bool.and_eq_true,
    Bool.not_eq_true', decide_eq_true_eq, Bool.or_eq_true, Bool.not_eq_true]
  constructor
  · rintro ⟨d, ⟨hd, ⟨⟨⟨hocc, hpow⟩, hsol⟩, hav⟩⟩, hid⟩
    refine ⟨d, hd, hid, hocc, hpow, ?_, hav⟩
    intro hs
    rcases hsol with hs' | hs'
    · rw [hs] at hs'; cases hs'
    · exact hs'
  · rintro ⟨d, hd, hid, hocc, hpow, hsol, hav⟩
    refine ⟨d, ⟨hd, ⟨⟨⟨hocc, hpow⟩, ?_⟩, hav⟩⟩, hid⟩
    by_cases hs : sol = true
    · exact Or.inr (hsol hs)
    · simp only [Bool.not_eq_true] at hs
      exact Or.inl hs

theorem pickDock_mem {st : ChargingStation} {b : Bool} {l : List Int}
    (h : pickDock st b l ≠ -1) : pickDock st b l ∈ l := by
  cases l with
  | nil => exact absurd rfl h
  | cons a rest =>
    by_cases hb : b = true
    · simp only [pickDock, hb, if_true]
      cases hf : (a :: rest).find? (dockIsSolar st) with
      | none => exact List.mem_cons_self a rest
      | some id => exact List.mem_of_find?_eq_some hf
    · simp only [Bool.not_eq_true] at hb
      simp only [pickDock, hb, Bool.false_eq_true, if_false]
      exact List.mem_cons_self a rest

theorem findAvailableDock_mem {w : WeatherCondition} {st : ChargingStation} {p : Int}
    {t dur : ℚ} {sol : Bool}
    (h : findAvailableDock w st p t dur sol ≠ -1) :
    findAvailableDock w st p t dur sol ∈ suitableDocks w st p t dur sol :=
  pickDock_mem h

/-- A successfully found dock never overlaps an active booking on it. -/
theorem findAvailableDock_avail {w : WeatherCondition} {st : ChargingStation} {p : Int}
    {t dur : ℚ} {sol : Bool}
    (h : findAvailableDock w st p t dur sol ≠ -1) :
    isDockAvailable st (findAvailableDock w st p t dur sol) t dur = true := by
  rcases suitableDocks_mem.mp (findAvailableDock_mem h) with ⟨d, _, hid, _, _, _, hav⟩
  rw [← hid]
  exact hav

/-! ### Projection lemmas for `anchorSet` -/

theorem anchorSet_users (st : ChargingStation) (t : ℚ) : (anchorSet st t).users = st.users := by
  unfold anchorSet; split <;> rfl

theorem anchorSet_vehicles (st : ChargingStation) (t : ℚ) :
    (anchorSet st t).vehicles = st.vehicles := by
  unfold anchorSet; split <;> rfl

theorem anchorSet_bookings (st : ChargingStation) (t : ℚ) :
    (anchorSet st t).bookings = st.bookings := by
  unfold anchorSet; split <;> rfl

theorem anchorSet_docks (st : ChargingStation) (t : ℚ) : (anchorSet st t).docks = st.docks := by
  unfold anchorSet; split <;> rfl

theorem anchorSet_stationID (st : ChargingStation) (t : ℚ) :
    (anchorSet st t).stationID = st.stationID := by
  unfold anchorSet; split <;> rfl

/-! ### Preservation of the no-overlap invariant -/

theorem bookingConflict_symm {a b : Booking} (h : bookingConflict a b) : bookingConflict b a :=
  ⟨h.2, h.1⟩

theorem noOverlap_append {bs : List Booking} {nb : Booking}
    (h : ∀ dID : Int, (bs.filter (fun b => b.isActive && b.dockID == dID)).Pairwise
      (fun a b => ¬ bookingConflict a b))
    (hav : ∀ b ∈ bs, b.isActive = true → b.dockID = nb.dockID → ¬ bookingConflict nb b)
    (dID : Int) :
    ((bs ++ [nb]).filter (fun b => b.isActive && b.dockID == dID)).Pairwise
      (fun a b => ¬ bookingConflict a b) := by
  rw [List.filter_append]
  refine List.pairwise_append.mpr ⟨h dID, ?_, ?_⟩
  · by_cases hq : (nb.isActive && nb.dockID == dID) = true <;> simp [List.filter_cons, hq]
  · intro a ha b hb
    rw [List.mem_filter] at ha hb
    rcases List.mem_singleton.mp hb.1 with rfl
    rcases Bool.and_eq_true_iff.mp ha.2 with ⟨haact, hadock⟩
    rcases Bool.and_eq_true_iff.mp hb.2 with ⟨_, hbdock⟩
    have hdd : a.dockID = b.dockID := by
      rw [beq_iff_eq] at hadock hbdock
      rw [hadock, hbdock]
    intro hc
    exact hav a ha.1 haact hdd (bookingConflict_symm hc)

theorem noOverlap_updateFirst_deactivate {bs : List Booking} {p : Booking → Bool}
    {f : Booking → Booking} (hf : ∀ b, (f b).isActive = false)
    (h : ∀ dID : Int, (bs.filter (fun b => b.isActive && b.dockID == dID)).Pairwise
      (fun a b => ¬ bookingConflict a b))
    (dID : Int) :
    ((updateFirst p f bs).filter (fun b => b.isActive && b.dockID == dID)).Pairwise
      (fun a b => ¬ bookingConflict a b) :=
  (h dID).sublist (filter_updateFirst_sublist p _ f (fun x => by simp [hf]) bs)

/-! ### Execution lemmas for `createBooking` -/

theorem createBooking_run (w : WeatherCondition) (st : ChargingStation) (uID vID : Int)
    (t dur : ℚ) (p ct : Int)
    (hcap : ¬ MAX_BOOKINGS ≤ st.bookings.length)
    (htd : ¬ (t < 0 ∨ 24 ≤ t ∨ dur ≤ 0))
    (huv : (userExists st uID && vehicleExists st vID uID) = true)
    (hd : findAvailableDock w (anchorSet st t) p (adjStart (anchorSet st t) uID vID t) dur
      (ct == 4) ≠ -1) :
    createBooking w st uID vID t dur p ct =
      (true, { anchorSet st t with
        bookings := st.bookings ++
          [Booking.create ((st.bookings.length : Int) + 1) uID vID
            (findAvailableDock w (anchorSet st t) p (adjStart (anchorSet st t) uID vID t) dur
              (ct == 4))
            st.stationID (adjStart (anchorSet st t) uID vID t) dur ct]
        docks := updateFirst
          (fun d => d.dockID ==
            findAvailableDock w (anchorSet st t) p (adjStart (anchorSet st t) uID vID t) dur
              (ct == 4))
          (fun d => { d with isOccupied := true, currentVehicleID := vID }) st.docks }) := by
  have hd' : (findAvailableDock w (anchorSet st t) p (adjStart (anchorSet st t) uID vID t) dur
      (ct == 4) == -1) = false := by
    rw [beq_eq_false_iff_ne]
    exact hd
  simp only [createBooking, hcap, htd, huv, Bool.not_true, if_false, Bool.false_eq_true,
    hd', anchorSet_bookings, anchorSet_docks, anchorSet_stationID]

theorem createBooking_conds {w : WeatherCondition} {st : ChargingStation} {uID vID : Int}
    {t dur : ℚ} {p ct : Int}
    (h : (createBooking w st uID vID t dur p ct).1 = true) :
    ¬ MAX_BOOKINGS ≤ st.bookings.length ∧ ¬ (t < 0 ∨ 24 ≤ t ∨ dur ≤ 0) ∧
    (userExists st uID && vehicleExists st vID uID) = true ∧
    findAvailableDock w (anchorSet st t) p (adjStart (anchorSet st t) uID vID t) dur
      (ct == 4) ≠ -1 := by
  by_cases hcap : MAX_BOOKINGS ≤ st.bookings.length
  · simp [createBooking, hcap] at h
  by_cases htd : t < 0 ∨ 24 ≤ t ∨ dur ≤ 0
  · simp [createBooking, hcap, htd] at h
  by_cases huv : (userExists st uID && vehicleExists st vID uID) = true
  · by_cases hd : findAvailableDock w (anchorSet st t) p (adjStart (anchorSet st t) uID vID t)
        dur (ct == 4) = -1
    · rw [show (createBooking w st uID vID t dur p ct) = (false, anchorSet st t) from by
        simp [createBooking, hcap, htd, huv, hd]] at h
      cases h
    · exact ⟨hcap, htd, huv, hd⟩
  · simp only [Bool.not_eq_true] at huv
    simp [createBooking, hcap, htd, huv] at h

theorem createBooking_false_state {w : WeatherCondition} {st : ChargingStation} {uID vID : Int}
    {t dur : ℚ} {p ct : Int}
    (h : (createBooking w st uID vID t dur p ct).1 = false) :
    (createBooking w st uID vID t dur p ct).2 = st ∨
    (createBooking w st uID vID t dur p ct).2 = anchorSet st t := by
  by_cases hcap : MAX_BOOKINGS ≤ st.bookings.length
  · left; simp [createBooking, hcap]
  by_cases htd : t < 0 ∨ 24 ≤ t ∨ dur ≤ 0
  · left; simp [createBooking, hcap, htd]
  by_cases huv : (userExists st uID && vehicleExists st vID uID) = true
  · by_cases hd : findAvailableDock w (anchorSet st t) p (adjStart (anchorSet st t) uID vID t)
        dur (ct == 4) = -1
    · right; simp [createBooking, hcap, htd, huv, hd]
    · rw [createBooking_run w st uID vID t dur p ct hcap htd huv hd] at h
      cases h
  · left
    simp only [Bool.not_eq_true] at huv
    simp [createBooking, hcap, htd, huv]

/-! ### Execution equations for cancellation and completion -/

theorem cancelBooking_eq_none {st : ChargingStation} {bID : Int}
    (hf : st.bookings.find? (fun b => b.bookingID == bID && b.isActive) = none) :
    cancelBooking st bID = (st, none) := by
  simp only [cancelBooking, hf]

theorem cancelBooking_eq_some {st : ChargingStation} {bID : Int} {b : Booking}
    (hf : st.bookings.find? (fun b => b.bookingID == bID && b.isActive) = some b) :
    cancelBooking st bID =
      ({ st with
          bookings := updateFirst (fun x => x.bookingID == bID && x.isActive)
            (fun x => { x with isActive := false }) st.bookings
          docks := updateFirst (fun d => d.dockID == b.dockID)
            (fun d => { d with isOccupied := false, currentVehicleID := -1 }) st.docks },
       some (penaltyFor (b.startTime - st.systemStartTime))) := by
  simp only [cancelBooking, hf]

theorem completeBooking_eq_none {w : WeatherCondition} {st : ChargingStation} {bID : Int}
    (hf : st.bookings.find? (fun b => b.bookingID == bID && b.isActive) = none) :
    completeBooking w st bID = st := by
  simp only [completeBooking, hf]

theorem completeBooking_eq_nodock {w : WeatherCondition} {st : ChargingStation} {bID : Int}
    {b : Booking}
    (hf : st.bookings.find? (fun b => b.bookingID == bID && b.isActive) = some b)
    (hd : st.docks.find? (fun d => d.dockID == b.dockID) = none) :
    completeBooking w st bID =
      { st with
          bookings := updateFirst (fun x => x.bookingID == bID && x.isActive)
            (fun x => { x with isActive := false }) st.bookings } := by
  simp only [completeBooking, hf, hd]

theorem completeBooking_eq_some {w : WeatherCondition} {st : ChargingStation} {bID : Int}
    {b : Booking} {dock : ChargingDock}
    (hf : st.bookings.find? (fun b => b.bookingID == bID && b.isActive) = some b)
    (hd : st.docks.find? (fun d => d.dockID == b.dockID) = some dock) :
    completeBooking w st bID =
      { st with
          bookings := updateFirst (fun x => x.bookingID == bID && x.isActive)
            (fun x =>
              { x with
                  isActive := false
                  energyConsumed :=
                    getAvailablePower w dock.energySource (dock.powerRating : ℚ) * b.duration
                  cost :=
                    (if (st.users.any fun u => u.userID == b.userID && u.membershipLevel == 1) =
                        true
                     then (getAvailablePower w dock.energySource (dock.powerRating : ℚ) *
                        b.duration) *
                        sessionRate dock.energySource b.chargingType b.startTime * (85/100)
                     else (getAvailablePower w dock.energySource (dock.powerRating : ℚ) *
                        b.duration) *
                        sessionRate dock.energySource b.chargingType b.startTime) })
            st.bookings
          docks := updateFirst (fun d => d.dockID == b.dockID)
            (fun d => { d with isOccupied := false, currentVehicleID := -1 }) st.docks
          totalOccupiedTime := modifyAt st.totalOccupiedTime
            (st.docks.findIdx (fun d => d.dockID == b.dockID)) (fun h => h + b.duration)
          vehicles := updateFirst (fun v => v.vehicleID == b.vehicleID)
            (fun v => chargeVehicle v
              (getAvailablePower w dock.energySource (dock.powerRating : ℚ) * b.duration))
            st.vehicles } := by
  simp only [completeBooking, hf, hd]

theorem createBooking_noOverlap (w : WeatherCondition) (st : ChargingStation) (uID vID : Int)
    (t dur : ℚ) (p ct : Int) (hInv : NoOverlapInv st) :
    NoOverlapInv (createBooking w st uID vID t dur p ct).2 := by
  cases hres : (createBooking w st uID vID t dur p ct).1 with
  | false =>
    rcases createBooking_false_state hres with h | h <;> rw [h]
    · exact hInv
    · intro dID
      rw [anchorSet_bookings]
      exact hInv dID
  | true =>
    obtain ⟨hcap, htd, huv, hd⟩ := createBooking_conds hres
    rw [createBooking_run w st uID vID t dur p ct hcap htd huv hd]
    intro dID
    refine noOverlap_append hInv ?_ dID
    intro b hb hact hdock
    have hav := findAvailableDock_avail hd
    rw [isDockAvailable_eq_true] at hav
    exact hav b (by rw [anchorSet_bookings]; exact hb) hact hdock

theorem cancelBooking_noOverlap (st : ChargingStation) (bID : Int) (hInv : NoOverlapInv st) :
    NoOverlapInv (cancelBooking st bID).1 := by
  cases hf : st.bookings.find? (fun b => b.bookingID == bID && b.isActive) with
  | none => rw [cancelBooking_eq_none hf]; exact hInv
  | some b =>
    rw [cancelBooking_eq_some hf]
    intro dID
    exact noOverlap_updateFirst_deactivate (fun x => rfl) hInv dID

theorem completeBooking_noOverlap (w : WeatherCondition) (st : ChargingStation) (bID : Int)
    (hInv : NoOverlapInv st) :
    NoOverlapInv (completeBooking w st bID) := by
  cases hf : st.bookings.find? (fun b => b.bookingID == bID && b.isActive) with
  | none => rw [completeBooking_eq_none hf]; exact hInv
  | some b =>
    cases hd : st.docks.find? (fun d => d.dockID == b.dockID) with
    | none =>
      rw [completeBooking_eq_nodock hf hd]
      intro dID
      exact noOverlap_updateFirst_deactivate (fun x => rfl) hInv dID
    | some dock =>
      rw [completeBooking_eq_some hf hd]
      intro dID
      exact noOverlap_updateFirst_deactivate (fun x => rfl) hInv dID

theorem stationDischargeToGrid_noOverlap (st : ChargingStation) (vID : Int) (e : ℚ)
    (hInv : NoOverlapInv st) :
    NoOverlapInv (stationDischargeToGrid st vID e).1 := by
  unfold stationDischargeToGrid
  cases hf : st.vehicles.find? (fun v => v.vehicleID == vID) with
  | none => exact hInv
  | some v => exact hInv

theorem requestBooking_noOverlap (w : WeatherCondition) (st : ChargingStation) (uID vID : Int)
    (t dur : ℚ) (ct : Int) (hInv : NoOverlapInv st) :
    NoOverlapInv (requestBooking w st uID vID t dur ct).2 := by
  unfold requestBooking
  by_cases h1 : (ct == 1) = true
  · simp only [h1, if_true]
    exact createBooking_noOverlap _ _ _ _ _ _ _ _ hInv
  by_cases h2 : (ct == 2) = true
  · simp only [h1, h2, Bool.false_eq_true, if_false, if_true]
    exact createBooking_noOverlap _ _ _ _ _ _ _ _ hInv
  by_cases h3 : (ct == 3) = true
  · simp only [h1, h2, h3, Bool.false_eq_true, if_false, if_true]
    exact createBooking_noOverlap _ _ _ _ _ _ _ _ hInv
  by_cases h4 : (ct == 4) = true
  · simp only [h1, h2, h3, h4, Bool.false_eq_true, if_false, if_true]
    exact createBooking_noOverlap _ _ _ _ _ _ _ _ hInv
  · simp only [Bool.not_eq_true] at h1 h2 h3 h4
    simp only [h1, h2, h3, h4, Bool.false_eq_true, if_false]
    exact hInv

/-! ### Deferral characterisation -/

theorem isCriticalBooking_anchorSet (st : ChargingStation) (t : ℚ) (uID vID : Int) :
    isCriticalBooking (anchorSet st t) uID vID = isCriticalBooking st uID vID := by
  unfold isCriticalBooking
  rw [anchorSet_users, anchorSet_vehicles]

theorem adjStart_anchorSet (st : ChargingStation) (t : ℚ) (uID vID : Int) :
    adjStart (anchorSet st t) uID vID t =
      if isPeakHour t = true ∧ isCriticalBooking st uID vID = false then PEAK_END else t := by
  unfold adjStart
  rw [isCriticalBooking_anchorSet]
  rcases Bool.eq_false_or_eq_true (isPeakHour t) with hp | hp <;>
    rcases Bool.eq_false_or_eq_true (isCriticalBooking st uID vID) with hc | hc <;>
      simp [hp, hc]

theorem adjStart_eq_ite (st : ChargingStation) (uID vID : Int) (t : ℚ) :
    adjStart st uID vID t =
      if isPeakHour t = true ∧ isCriticalBooking st uID vID = false then PEAK_END else t := by
  unfold adjStart
  rcases Bool.eq_false_or_eq_true (isPeakHour t) with hp | hp <;>
    rcases Bool.eq_false_or_eq_true (isCriticalBooking st uID vID) with hc | hc <;>
      simp [hp, hc]

theorem createBooking_run_snd (w : WeatherCondition) (st : ChargingStation) (uID vID : Int)
    (t dur : ℚ) (p ct : Int)
    (hcap : ¬ MAX_BOOKINGS ≤ st.bookings.length)
    (htd : ¬ (t < 0 ∨ 24 ≤ t ∨ dur ≤ 0))
    (huv : (userExists st uID && vehicleExists st vID uID) = true)
    (hd : findAvailableDock w (anchorSet st t) p (adjStart (anchorSet st t) uID vID t) dur
      (ct == 4) ≠ -1) :
    (createBooking w st uID vID t dur p ct).2 =
      { anchorSet st t with
        bookings := st.bookings ++
          [Booking.create ((st.bookings.length : Int) + 1) uID vID
            (findAvailableDock w (anchorSet st t) p (adjStart (anchorSet st t) uID vID t) dur
              (ct == 4))
            st.stationID (adjStart (anchorSet st t) uID vID t) dur ct]
        docks := updateFirst
          (fun d => d.dockID ==
            findAvailableDock w (anchorSet st t) p (adjStart (anchorSet st t) uID vID t) dur
              (ct == 4))
          (fun d => { d with isOccupied := true, currentVehicleID := vID }) st.docks } := by
  rw [createBooking_run w st uID vID t dur p ct hcap htd huv hd]

/-! ### Claim theorems -/

/-- C4: every operation on a station — a booking request, a cancellation, a
completion, a V2G discharge, and the process-wide weather change — preserves
the invariant that, for every dock, the set of Active bookings referencing
that dock has pairwise non-overlapping half-open
`[startTime, startTime + duration)` intervals. -/
theorem noOverlapInv_preserved (w c : WeatherCondition) (st : ChargingStation)
    (uID vID bID vID2 ct : Int) (t dur e : ℚ)
    (hInv : NoOverlapInv st) :
    NoOverlapInv (requestBooking w st uID vID t dur ct).2 ∧
    NoOverlapInv (cancelBooking st bID).1 ∧
    NoOverlapInv (completeBooking w st bID) ∧
    NoOverlapInv (stationDischargeToGrid st vID2 e).1 ∧
    NoOverlapInv (setWeather { weather := w, station := st } c).station :=
  ⟨requestBooking_noOverlap w st uID vID t dur ct hInv,
   cancelBooking_noOverlap st bID hInv,
   completeBooking_noOverlap w st bID hInv,
   stationDischargeToGrid_noOverlap st vID2 e hInv,
   hInv⟩

/-- Witness for C4 at a concrete station. -/
theorem noOverlapInv_preserved_witness :
    NoOverlapInv (requestBooking .sunny cxStBase 1 1 10 1 2).2 ∧
    NoOverlapInv (cancelBooking cxStBase 1).1 ∧
    NoOverlapInv (completeBooking .sunny cxStBase 1) ∧
    NoOverlapInv (stationDischargeToGrid cxStBase 1 5).1 ∧
    NoOverlapInv (setWeather { weather := .sunny, station := cxStBase } .night).station :=
  noOverlapInv_preserved .sunny .night cxStBase 1 1 1 1 2 10 1 5
    (by intro dID; simp [cxStBase, initialStation])

/-- C2: a successfully created booking is stored at start time `PEAK_END`
exactly when the requested start lies in the half-open peak window
`[PEAK_START, PEAK_END)` and the request is not critical; a critical request
keeps its literal start time.  Boundary facts: 12.0 is peak, 11.999 and 18.0
are not. -/
theorem createBooking_peak_deferral (w : WeatherCondition) (st : ChargingStation)
    (uID vID : Int) (t dur : ℚ) (p ct : Int)
    (h : (createBooking w st uID vID t dur p ct).1 = true) :
    (∃ nb : Booking,
      (createBooking w st uID vID t dur p ct).2.bookings = st.bookings ++ [nb] ∧
      nb.startTime =
        (if isPeakHour t = true ∧ isCriticalBooking st uID vID = false then PEAK_END else t)) ∧
    (∀ s : ℚ, isPeakHour s = true ↔ PEAK_START ≤ s ∧ s < PEAK_END) ∧
    isPeakHour 12 = true ∧ isPeakHour (11999/1000) = false ∧ isPeakHour 18 = false := by
  obtain ⟨hcap, htd, huv, hd⟩ := createBooking_conds h
  refine ⟨?_, ?_, by decide, by decide, by decide⟩
  · rw [createBooking_run w st uID vID t dur p ct hcap htd huv hd]
    exact ⟨_, rfl, adjStart_anchorSet st t uID vID⟩
  · intro s
    simp [isPeakHour]

/-- Witness for C2: a Regular user with SOC 50 requesting 14.0 is deferred. -/
theorem createBooking_peak_deferral_witness :
    (∃ nb : Booking,
      (createBooking .sunny cxStBase 1 1 14 1 22 2).2.bookings = cxStBase.bookings ++ [nb] ∧
      nb.startTime =
        (if isPeakHour 14 = true ∧ isCriticalBooking cxStBase 1 1 = false then PEAK_END
         else 14)) ∧
    (∀ s : ℚ, isPeakHour s = true ↔ PEAK_START ≤ s ∧ s < PEAK_END) ∧
    isPeakHour 12 = true ∧ isPeakHour (11999/1000) = false ∧ isPeakHour 18 = false :=
  createBooking_peak_deferral .sunny cxStBase 1 1 14 1 22 2 (by decide)

/-- Counterexample to C5 as stated: the station's very first request, made by a
Regular user at 14.0 (peak, non-critical), is deferred, so the stored booking
start time is 18.0 while `systemStartTime` is set to the raw requested 14.0 —
the two differ. -/
theorem systemStartTime_deferred_cx :
    cxStBase.bookings = [] ∧
    (createBooking .sunny cxStBase 1 1 14 1 22 2).1 = true ∧
    (createBooking .sunny cxStBase 1 1 14 1 22 2).2.systemStartTime = 14 ∧
    ((createBooking .sunny cxStBase 1 1 14 1 22 2).2.bookings.map (fun b => b.startTime)) =
      [18] ∧
    (14 : ℚ) ≠ 18 := by
  refine ⟨rfl, by decide, by decide, by decide, by decide⟩

/-- C5 (amended): after a station's first successful booking, `systemStartTime`
equals the request's RAW start time — which coincides with the stored booking
start time exactly when the request was not deferred — and the
cancellation-penalty computation measures time-to-start against it. -/
theorem systemStartTime_first_booking (w : WeatherCondition) (st : ChargingStation)
    (uID vID : Int) (t dur : ℚ) (p ct : Int)
    (hempty : st.bookings = [])
    (h : (createBooking w st uID vID t dur p ct).1 = true) :
    (createBooking w st uID vID t dur p ct).2.systemStartTime = t ∧
    (createBooking w st uID vID t dur p ct).2.bookings.map (fun b => b.startTime) =
      [if isPeakHour t = true ∧ isCriticalBooking st uID vID = false then PEAK_END else t] ∧
    (cancelBooking (createBooking w st uID vID t dur p ct).2 1).2 =
      some (penaltyFor
        ((if isPeakHour t = true ∧ isCriticalBooking st uID vID = false then PEAK_END else t) -
          t)) := by
  obtain ⟨hcap, htd, huv, hd⟩ := createBooking_conds h
  have hanchor : anchorSet st t = { st with systemStartTime := t } := by
    simp [anchorSet, hempty]
  rw [createBooking_run_snd w st uID vID t dur p ct hcap htd huv hd, hanchor, hempty]
  refine ⟨rfl, ?_, ?_⟩
  · simp only [List.nil_append, List.map_cons, List.map_nil, Booking.create]
    rw [adjStart_eq_ite]
    exact rfl
  · simp [cancelBooking, List.find?, Booking.create]
    rw [adjStart_eq_ite]
    exact rfl

/-- Witness for C5 (amended) at the deferred first request. -/
theorem systemStartTime_first_booking_witness :
    (createBooking .sunny cxStBase 1 1 14 1 22 2).2.systemStartTime = 14 ∧
    (createBooking .sunny cxStBase 1 1 14 1 22 2).2.bookings.map (fun b => b.startTime) =
      [if isPeakHour 14 = true ∧ isCriticalBooking cxStBase 1 1 = false then PEAK_END
       else 14] ∧
    (cancelBooking (createBooking .sunny cxStBase 1 1 14 1 22 2).2 1).2 =
      some (penaltyFor
        ((if isPeakHour 14 = true ∧ isCriticalBooking cxStBase 1 1 = false then PEAK_END
          else 14) - 14)) :=
  systemStartTime_first_booking .sunny cxStBase 1 1 14 1 22 2 rfl (by decide)

/-- C6: cancelling an Active booking charges the flat penalty determined by
`timeToStart = startTime - systemStartTime` (5.0 below 1.0, else 2.0 below
4.0, else 0.0), deactivates the booking and frees its dock.  Test vectors:
0.5 → 5.0, 2.0 → 2.0, 5.0 → 0.0. -/
theorem cancelBooking_penalty (st : ChargingStation) (bID : Int) (b : Booking)
    (hf : st.bookings.find? (fun x => x.bookingID == bID && x.isActive) = some b) :
    cancelBooking st bID =
      ({ st with
          bookings := updateFirst (fun x => x.bookingID == bID && x.isActive)
            (fun x => { x with isActive := false }) st.bookings
          docks := updateFirst (fun d => d.dockID == b.dockID)
            (fun d => { d with isOccupied := false, currentVehicleID := -1 }) st.docks },
       some (penaltyFor (b.startTime - st.systemStartTime))) ∧
    (∀ tts : ℚ, penaltyFor tts = if tts < 1 then 5 else if tts < 4 then 2 else 0) ∧
    penaltyFor (1/2) = 5 ∧ penaltyFor 2 = 2 ∧ penaltyFor 5 = 0 :=
  ⟨cancelBooking_eq_some hf, fun _ => rfl, by decide, by decide, by decide⟩

/-- Witness for C6 at the concrete station `cxSt3`. -/
theorem cancelBooking_penalty_witness :
    cancelBooking cxSt3 1 =
      ({ cxSt3 with
          bookings := updateFirst (fun x => x.bookingID == 1 && x.isActive)
            (fun x => { x with isActive := false }) cxSt3.bookings
          docks := updateFirst (fun d => d.dockID == cxBk.dockID)
            (fun d => { d with isOccupied := false, currentVehicleID := -1 }) cxSt3.docks },
       some (penaltyFor (cxBk.startTime - cxSt3.systemStartTime))) ∧
    (∀ tts : ℚ, penaltyFor tts = if tts < 1 then 5 else if tts < 4 then 2 else 0) ∧
    penaltyFor (1/2) = 5 ∧ penaltyFor 2 = 2 ∧ penaltyFor 5 = 0 :=
  cancelBooking_penalty cxSt3 1 cxBk rfl

/-- C1: completing an Active booking computes
`energy = availablePower(dock) × duration` under the current environment and
prices it by the rate pipeline in strict order — base rate by charging type
(Slow 0.2, Medium 0.3, Fast 0.4, Solar 0.15), ×0.85 when the type is Solar,
×1.2 when the STORED start time is peak, × the source's rate adjustment
(Grid 1, Solar 0.9) — with `cost = energy × rate`, ×0.85 for a Premium user.
In particular a Fast session on a Grid dock off-peak for a Regular user costs
`P·D·0.4`, and a Solar session on a Solar dock at peak for a Premium user
costs `P·D·0.15·0.85·1.2·0.9·0.85`. -/
theorem completeBooking_billing (w : WeatherCondition) (st : ChargingStation) (bID : Int)
    (b : Booking) (dock : ChargingDock)
    (hf : st.bookings.find? (fun x => x.bookingID == bID && x.isActive) = some b)
    (hd : st.docks.find? (fun d => d.dockID == b.dockID) = some dock) :
    ((completeBooking w st bID).bookings =
      updateFirst (fun x => x.bookingID == bID && x.isActive)
        (fun x =>
          { x with
              isActive := false
              energyConsumed :=
                getAvailablePower w dock.energySource (dock.powerRating : ℚ) * b.duration
              cost :=
                (if (st.users.any fun u => u.userID == b.userID && u.membershipLevel == 1) =
                    true
                 then (getAvailablePower w dock.energySource (dock.powerRating : ℚ) *
                    b.duration) *
                    sessionRate dock.energySource b.chargingType b.startTime * (85/100)
                 else (getAvailablePower w dock.energySource (dock.powerRating : ℚ) *
                    b.duration) *
                    sessionRate dock.energySource b.chargingType b.startTime) })
        st.bookings) ∧
    (baseRate 1 = 2/10 ∧ baseRate 2 = 3/10 ∧ baseRate 3 = 4/10 ∧ baseRate 4 = 15/100) ∧
    (getRateAdjustment EnergySource.grid = 1 ∧
      getRateAdjustment EnergySource.solar = 9/10) ∧
    (∀ (src : EnergySource) (ctype : Int) (s : ℚ),
      sessionRate src ctype s =
        (if ctype = 4
         then (if PEAK_START ≤ s ∧ s < PEAK_END
               then baseRate ctype * (85/100) * (12/10)
               else baseRate ctype * (85/100))
         else (if PEAK_START ≤ s ∧ s < PEAK_END
               then baseRate ctype * (12/10)
               else baseRate ctype)) * getRateAdjustment src) ∧
    (∀ P D s : ℚ, isPeakHour s = false →
      P * D * sessionRate EnergySource.grid 3 s = P * D * (4/10)) ∧
    (∀ P D s : ℚ, isPeakHour s = true →
      (P * D * sessionRate EnergySource.solar 4 s) * (85/100) =
        P * D * (15/100) * (85/100) * (12/10) * (9/10) * (85/100)) := by
  refine ⟨?_, ⟨rfl, rfl, rfl, rfl⟩, ⟨rfl, rfl⟩, ?_, ?_, ?_⟩
  · rw [completeBooking_eq_some hf hd]
  · intro src ctype s
    by_cases hc : ctype = 4 <;> by_cases hpk : PEAK_START ≤ s ∧ s < PEAK_END
    · have hb : isPeakHour s = true := by simp [isPeakHour, hpk.1, hpk.2]
      simp [sessionRate, hc, hpk, hb]
    · have hb : isPeakHour s = false := by
        simp only [isPeakHour, Bool.and_eq_false_iff, decide_eq_false_iff_not]
        by_cases h1 : PEAK_START ≤ s
        · exact Or.inr (fun h2 => hpk ⟨h1, h2⟩)
        · exact Or.inl h1
      simp [sessionRate, hc, hpk, hb]
    · have hb : isPeakHour s = true := by simp [isPeakHour, hpk.1, hpk.2]
      have hc' : (ctype == 4) = false := by
        rw [beq_eq_false_iff_ne]
        exact hc
      simp [sessionRate, hc, hc', hpk, hb]
    · have hb : isPeakHour s = false := by
        simp only [isPeakHour, Bool.and_eq_false_iff, decide_eq_false_iff_not]
        by_cases h1 : PEAK_START ≤ s
        · exact Or.inr (fun h2 => hpk ⟨h1, h2⟩)
        · exact Or.inl h1
      have hc' : (ctype == 4) = false := by
        rw [beq_eq_false_iff_ne]
        exact hc
      simp [sessionRate, hc, hc', hpk, hb]
  · intro P D s hpk
    simp only [sessionRate, baseRate, getRateAdjustment, hpk, Bool.false_eq_true, if_false]
    norm_num
  · intro P D s hpk
    simp only [sessionRate, baseRate, getRateAdjustment, hpk, if_true]
    ring_nf
    norm_num
    ring

theorem updateFirst_free_occ (docks : List ChargingDock) (dID vID2 : Int) :
    updateFirst (fun d => d.dockID == dID)
      (fun d => { d with isOccupied := false, currentVehicleID := -1 })
      (updateFirst (fun d => d.dockID == dID)
        (fun d => { d with isOccupied := true, currentVehicleID := vID2 }) docks) =
    updateFirst (fun d => d.dockID == dID)
      (fun d => { d with isOccupied := false, currentVehicleID := -1 }) docks := by
  induction docks with
  | nil => rfl
  | cons x xs ih =>
    by_cases hx : (x.dockID == dID) = true <;> simp [updateFirst, hx, ih]

theorem find?_updateFirst_free (docks : List ChargingDock) (dID : Int) :
    (updateFirst (fun d => d.dockID == dID)
      (fun d => { d with isOccupied := false, currentVehicleID := -1 }) docks).find?
        (fun d => d.dockID == dID) =
    (docks.find? (fun d => d.dockID == dID)).map
      (fun d => { d with isOccupied := false, currentVehicleID := -1 }) := by
  refine find?_updateFirst ?_ docks
  intro x
  rfl

/-- C7: create-then-cancel leaves the booking's dock unoccupied and the
booking deactivated with zero cost and zero consumed energy (Cancelled, not
Completed), and a later completion attempt on the cancelled booking is a
strict no-op that changes nothing and records no cost or energy. -/
theorem create_cancel_roundtrip (w w2 : WeatherCondition) (st : ChargingStation)
    (uID vID : Int) (t dur : ℚ) (p ct : Int)
    (hid : ∀ b ∈ st.bookings, b.bookingID ≠ (st.bookings.length : Int) + 1)
    (h : (createBooking w st uID vID t dur p ct).1 = true) :
    ∃ nb : Booking,
      (createBooking w st uID vID t dur p ct).2.bookings = st.bookings ++ [nb] ∧
      nb.bookingID = (st.bookings.length : Int) + 1 ∧
      nb.isActive = true ∧ nb.cost = 0 ∧ nb.energyConsumed = 0 ∧
      (cancelBooking (createBooking w st uID vID t dur p ct).2 nb.bookingID).1.bookings =
        st.bookings ++ [{ nb with isActive := false }] ∧
      (∃ d : ChargingDock,
        (cancelBooking (createBooking w st uID vID t dur p ct).2 nb.bookingID).1.docks.find?
          (fun x => x.dockID == nb.dockID) = some d ∧ d.isOccupied = false) ∧
      completeBooking w2
        (cancelBooking (createBooking w st uID vID t dur p ct).2 nb.bookingID).1
        nb.bookingID =
        (cancelBooking (createBooking w st uID vID t dur p ct).2 nb.bookingID).1 := by
  obtain ⟨hcap, htd, huv, hd⟩ := createBooking_conds h
  have hsnd := createBooking_run_snd w st uID vID t dur p ct hcap htd huv hd
  have hbk : (createBooking w st uID vID t dur p ct).2.bookings =
      st.bookings ++
        [Booking.create ((st.bookings.length : Int) + 1) uID vID
          (findAvailableDock w (anchorSet st t) p (adjStart (anchorSet st t) uID vID t) dur
            (ct == 4))
          st.stationID (adjStart (anchorSet st t) uID vID t) dur ct] := by rw [hsnd]
  have hdocks : (createBooking w st uID vID t dur p ct).2.docks =
      updateFirst
        (fun d => d.dockID ==
          findAvailableDock w (anchorSet st t) p (adjStart (anchorSet st t) uID vID t) dur
            (ct == 4))
        (fun d => { d with isOccupied := true, currentVehicleID := vID }) st.docks := by
    rw [hsnd]
  have hpredold : ∀ x ∈ st.bookings,
      (x.bookingID ==
        (Booking.create ((st.bookings.length : Int) + 1) uID vID
          (findAvailableDock w (anchorSet st t) p (adjStart (anchorSet st t) uID vID t) dur
            (ct == 4))
          st.stationID (adjStart (anchorSet st t) uID vID t) dur ct).bookingID &&
        x.isActive) = false := by
    intro x hx
    have hne : (x.bookingID ==
        (Booking.create ((st.bookings.length : Int) + 1) uID vID
          (findAvailableDock w (anchorSet st t) p (adjStart (anchorSet st t) uID vID t) dur
            (ct == 4))
          st.stationID (adjStart (anchorSet st t) uID vID t) dur ct).bookingID) = false := by
      rw [beq_eq_false_iff_ne]
      exact hid x hx
    rw [hne, Bool.false_and]
  have hfind : (createBooking w st uID vID t dur p ct).2.bookings.find?
      (fun x => x.bookingID ==
        (Booking.create ((st.bookings.length : Int) + 1) uID vID
          (findAvailableDock w (anchorSet st t) p (adjStart (anchorSet st t) uID vID t) dur
            (ct == 4))
          st.stationID (adjStart (anchorSet st t) uID vID t) dur ct).bookingID &&
        x.isActive) =
      some (Booking.create ((st.bookings.length : Int) + 1) uID vID
        (findAvailableDock w (anchorSet st t) p (adjStart (anchorSet st t) uID vID t) dur
          (ct == 4))
        st.stationID (adjStart (anchorSet st t) uID vID t) dur ct) := by
    rw [hbk, find?_append_left _ hpredold]
    simp [List.find?, Booking.create]
  have hcancel := cancelBooking_eq_some hfind
  have hbk2 := congrArg (fun s : ChargingStation × Option ℚ => s.1.bookings) hcancel
  dsimp only at hbk2
  rw [hbk, updateFirst_append_left _ hpredold] at hbk2
  have hsingle : updateFirst
      (fun x => x.bookingID ==
        (Booking.create ((st.bookings.length : Int) + 1) uID vID
          (findAvailableDock w (anchorSet st t) p (adjStart (anchorSet st t) uID vID t) dur
            (ct == 4))
          st.stationID (adjStart (anchorSet st t) uID vID t) dur ct).bookingID &&
        x.isActive)
      (fun x => { x with isActive := false })
      [Booking.create ((st.bookings.length : Int) + 1) uID vID
        (findAvailableDock w (anchorSet st t) p (adjStart (anchorSet st t) uID vID t) dur
          (ct == 4))
        st.stationID (adjStart (anchorSet st t) uID vID t) dur ct] =
      [{ Booking.create ((st.bookings.length : Int) + 1) uID vID
          (findAvailableDock w (anchorSet st t) p (adjStart (anchorSet st t) uID vID t) dur
            (ct == 4))
          st.stationID (adjStart (anchorSet st t) uID vID t) dur ct with isActive := false }] := by
    simp [updateFirst, Booking.create]
  rw [hsingle] at hbk2
  have hproj : (Booking.create ((st.bookings.length : Int) + 1) uID vID
      (findAvailableDock w (anchorSet st t) p (adjStart (anchorSet st t) uID vID t) dur
        (ct == 4))
      st.stationID (adjStart (anchorSet st t) uID vID t) dur ct).dockID =
      findAvailableDock w (anchorSet st t) p (adjStart (anchorSet st t) uID vID t) dur
        (ct == 4) := rfl
  have hdocks2 := congrArg (fun s : ChargingStation × Option ℚ => s.1.docks) hcancel
  dsimp only at hdocks2
  rw [hdocks] at hdocks2
  simp only [hproj] at hdocks2
  rw [updateFirst_free_occ] at hdocks2
  refine ⟨Booking.create ((st.bookings.length : Int) + 1) uID vID
    (findAvailableDock w (anchorSet st t) p (adjStart (anchorSet st t) uID vID t) dur (ct == 4))
    st.stationID (adjStart (anchorSet st t) uID vID t) dur ct,
    hbk, rfl, rfl, rfl, rfl, hbk2, ?_, ?_⟩
  · -- the booking's dock is unoccupied after cancellation
    simp only [hproj]
    rw [hdocks2, find?_updateFirst_free]
    obtain ⟨d0, hd0mem, hd0id, -⟩ := suitableDocks_mem.mp (findAvailableDock_mem hd)
    rw [anchorSet_docks] at hd0mem
    have hsome : (st.docks.find? (fun x => x.dockID ==
        findAvailableDock w (anchorSet st t) p (adjStart (anchorSet st t) uID vID t) dur
          (ct == 4))).isSome := by
      rw [List.find?_isSome]
      refine ⟨d0, hd0mem, ?_⟩
      rw [beq_iff_eq]
      exact hd0id
    obtain ⟨d1, hd1⟩ := Option.isSome_iff_exists.mp hsome
    rw [hd1]
    exact ⟨{ d1 with isOccupied := false, currentVehicleID := -1 }, rfl, rfl⟩
  · -- a cancelled booking can never later be completed
    refine completeBooking_eq_none ?_
    rw [hbk2, find?_append_left _ hpredold]
    simp [List.find?, Booking.create]

/-- Witness for C7: book the Slow Grid dock at 10.0 on the fresh station,
cancel, then attempt completion. -/
theorem create_cancel_roundtrip_witness :
    ∃ nb : Booking,
      (createBooking .sunny cxStBase 1 1 10 1 7 1).2.bookings = cxStBase.bookings ++ [nb] ∧
      nb.bookingID = (cxStBase.bookings.length : Int) + 1 ∧
      nb.isActive = true ∧ nb.cost = 0 ∧ nb.energyConsumed = 0 ∧
      (cancelBooking (createBooking .sunny cxStBase 1 1 10 1 7 1).2 nb.bookingID).1.bookings =
        cxStBase.bookings ++ [{ nb with isActive := false }] ∧
      (∃ d : ChargingDock,
        (cancelBooking (createBooking .sunny cxStBase 1 1 10 1 7 1).2
            nb.bookingID).1.docks.find? (fun x => x.dockID == nb.dockID) = some d ∧
          d.isOccupied = false) ∧
      completeBooking .night
        (cancelBooking (createBooking .sunny cxStBase 1 1 10 1 7 1).2 nb.bookingID).1
        nb.bookingID =
        (cancelBooking (createBooking .sunny cxStBase 1 1 10 1 7 1).2 nb.bookingID).1 :=
  create_cancel_roundtrip .sunny .night cxStBase 1 1 10 1 7 1 (by decide) (by decide)

/-- Rejection analysis of `createBooking`: any of the listed failure causes
yields `(false, st)` with the station unchanged. -/
theorem createBooking_rejects (w : WeatherCondition) (st : ChargingStation) (uID vID : Int)
    (t dur : ℚ) (p ct : Int)
    (h : t < 0 ∨ 24 ≤ t ∨ dur ≤ 0 ∨ userExists st uID = false ∨
      vehicleExists st vID uID = false ∨ MAX_BOOKINGS ≤ st.bookings.length) :
    createBooking w st uID vID t dur p ct = (false, st) := by
  by_cases hcap : MAX_BOOKINGS ≤ st.bookings.length
  · simp [createBooking, hcap]
  by_cases htd : t < 0 ∨ 24 ≤ t ∨ dur ≤ 0
  · simp [createBooking, hcap, htd]
  have huv : (userExists st uID && vehicleExists st vID uID) = false := by
    rcases h with h | h | h | h | h | h
    · exact absurd (Or.inl h) htd
    · exact absurd (Or.inr (Or.inl h)) htd
    · exact absurd (Or.inr (Or.inr h)) htd
    · simp [h]
    · simp [h]
    · exact absurd h hcap
  simp [createBooking, hcap, htd, huv]

/-- C8: `requestBooking` rejects — appending no booking and occupying no dock,
indeed changing no station state at all — whenever the start time is outside
[0, 24), or the duration is non-positive, or the charging-type code is not
one of 1..4, or the user does not exist, or the vehicle does not exist or is
not owned by the user, or the booking ledger is at capacity. -/
theorem requestBooking_rejections (w : WeatherCondition) (st : ChargingStation)
    (uID vID : Int) (t dur : ℚ) (ct : Int)
    (h : t < 0 ∨ 24 ≤ t ∨ dur ≤ 0 ∨ (ct ≠ 1 ∧ ct ≠ 2 ∧ ct ≠ 3 ∧ ct ≠ 4) ∨
      userExists st uID = false ∨ vehicleExists st vID uID = false ∨
      MAX_BOOKINGS ≤ st.bookings.length) :
    requestBooking w st uID vID t dur ct = (false, st) := by
  have hcb : ∀ q : Int, (ct = 1 ∨ ct = 2 ∨ ct = 3 ∨ ct = 4) →
      createBooking w st uID vID t dur q ct = (false, st) := by
    intro q hct
    apply createBooking_rejects
    rcases h with h | h | h | h | h | h | h
    · exact Or.inl h
    · exact Or.inr (Or.inl h)
    · exact Or.inr (Or.inr (Or.inl h))
    · rcases hct with rfl | rfl | rfl | rfl
      · exact absurd rfl h.1
      · exact absurd rfl h.2.1
      · exact absurd rfl h.2.2.1
      · exact absurd rfl h.2.2.2
    · exact Or.inr (Or.inr (Or.inr (Or.inl h)))
    · exact Or.inr (Or.inr (Or.inr (Or.inr (Or.inl h))))
    · exact Or.inr (Or.inr (Or.inr (Or.inr (Or.inr h))))
  unfold requestBooking
  by_cases h1 : (ct == 1) = true
  · rw [if_pos h1]
    exact hcb SLOW (Or.inl (by rwa [beq_iff_eq] at h1))
  rw [if_neg h1]
  by_cases h2 : (ct == 2) = true
  · rw [if_pos h2]
    exact hcb MEDIUM (Or.inr (Or.inl (by rwa [beq_iff_eq] at h2)))
  rw [if_neg h2]
  by_cases h3 : (ct == 3) = true
  · rw [if_pos h3]
    exact hcb FAST (Or.inr (Or.inr (Or.inl (by rwa [beq_iff_eq] at h3))))
  rw [if_neg h3]
  by_cases h4 : (ct == 4) = true
  · rw [if_pos h4]
    exact hcb SOLAR (Or.inr (Or.inr (Or.inr (by rwa [beq_iff_eq] at h4))))
  rw [if_neg h4]

/-- Witness for C8: an out-of-range start time is rejected without any state
change. -/
theorem requestBooking_rejections_witness :
    requestBooking .sunny cxStBase 1 1 (-1) 1 2 = (false, cxStBase) :=
  requestBooking_rejections .sunny cxStBase 1 1 (-1) 1 2 (Or.inl (by decide))

/-- Counterexample to C9 as stated: a V2G vehicle with capacity 10 and SOC 50
asked to discharge the NEGATIVE amount -100 ends with SOC 1050, far outside
[0, 100] — `dischargeToGrid` has no upper clamp, so the claimed invariant
fails for negative requested energy. -/
theorem dischargeToGrid_negative_cx :
    (0 < cxEVd.batteryCapacity ∧ 0 ≤ cxEVd.batterySOC ∧ cxEVd.batterySOC ≤ 100 ∧
      cxEVd.supportsV2G = true) ∧
    (cxEVd.dischargeToGrid (-100)).1.batterySOC = 1050 ∧
    ¬ ((cxEVd.dischargeToGrid (-100)).1.batterySOC ≤ 100) := by
  exact ⟨by decide, by decide, by decide⟩

/-- C9 (amended): for every vehicle with positive capacity and SOC in [0,100],
`dischargeToGrid` with NONNEGATIVE requested energy keeps the SOC in [0,100]
(discharging `min(requested, SOC/100·capacity)`, floored at 0, and returning
0 for non-V2G vehicles), and the charge-completion update adds
`energy/capacity·100` with nonnegative energy, clamped above at 100; dock
power is never negative, and neither booking creation nor cancellation
touches any vehicle. -/
theorem soc_bounds (v : EV) (e energy bp : ℚ) (w : WeatherCondition) (src : EnergySource)
    (hc : 0 < v.batteryCapacity) (h0 : 0 ≤ v.batterySOC) (h1 : v.batterySOC ≤ 100)
    (he : 0 ≤ e) (hE : 0 ≤ energy) (hbp : 0 ≤ bp) :
    (0 ≤ (v.dischargeToGrid e).1.batterySOC ∧ (v.dischargeToGrid e).1.batterySOC ≤ 100) ∧
    (v.supportsV2G = false → v.dischargeToGrid e = (v, 0)) ∧
    (v.supportsV2G = true →
      (v.dischargeToGrid e).2 = fmin e ((v.batterySOC / 100) * v.batteryCapacity)) ∧
    (0 ≤ (chargeVehicle v energy).batterySOC ∧ (chargeVehicle v energy).batterySOC ≤ 100) ∧
    0 ≤ getAvailablePower w src bp ∧
    (∀ (st : ChargingStation) (uID vID bID p ct : Int) (t dur : ℚ),
      (createBooking w st uID vID t dur p ct).2.vehicles = st.vehicles ∧
      (cancelBooking st bID).1.vehicles = st.vehicles) := by
  have hmin : 0 ≤ fmin e ((v.batterySOC / 100) * v.batteryCapacity) := by
    unfold fmin
    split
    · exact mul_nonneg (div_nonneg h0 (by norm_num)) (le_of_lt hc)
    · exact he
  refine ⟨?_, ?_, ?_, ?_, ?_, ?_⟩
  · by_cases hv : v.supportsV2G = true
    · simp only [EV.dischargeToGrid, hv, Bool.not_true, Bool.false_eq_true, if_false]
      constructor
      · split
        · exact le_refl 0
        · rename_i hlt
          exact le_of_not_lt hlt
      · split
        · norm_num
        · have hsub : (fmin e ((v.batterySOC / 100) * v.batteryCapacity) /
              v.batteryCapacity) * 100 ≥ 0 :=
            mul_nonneg (div_nonneg hmin (le_of_lt hc)) (by norm_num)
          linarith
    · simp only [Bool.not_eq_true] at hv
      simp only [EV.dischargeToGrid, hv, Bool.not_false, if_true]
      exact ⟨h0, h1⟩
  · intro hv
    simp [EV.dischargeToGrid, hv]
  · intro hv
    simp [EV.dischargeToGrid, hv]
  · have hadd : 0 ≤ (energy / v.batteryCapacity) * 100 :=
      mul_nonneg (div_nonneg hE (le_of_lt hc)) (by norm_num)
    constructor
    · simp only [chargeVehicle]
      split
      · norm_num
      · linarith
    · simp only [chargeVehicle]
      split
      · exact le_refl 100
      · rename_i hlt
        exact le_of_not_lt hlt
  · cases src <;> cases w <;> simp [getAvailablePower] <;> linarith
  · intro st uID vID bID p ct t dur
    constructor
    · cases hres : (createBooking w st uID vID t dur p ct).1 with
      | false =>
        rcases createBooking_false_state hres with hst | hst <;> rw [hst]
        exact anchorSet_vehicles st t
      | true =>
        obtain ⟨hcap, htd, huv, hd⟩ := createBooking_conds hres
        rw [createBooking_run_snd w st uID vID t dur p ct hcap htd huv hd]
        exact anchorSet_vehicles st t
    · cases hf : st.bookings.find? (fun b => b.bookingID == bID && b.isActive) with
      | none => rw [cancelBooking_eq_none hf]
      | some b => rw [cancelBooking_eq_some hf]

/-- Witness for C9 (amended) on the V2G vehicle `cxEVd`. -/
theorem soc_bounds_witness :
    (0 ≤ (cxEVd.dischargeToGrid 3).1.batterySOC ∧
      (cxEVd.dischargeToGrid 3).1.batterySOC ≤ 100) ∧
    (cxEVd.supportsV2G = false → cxEVd.dischargeToGrid 3 = (cxEVd, 0)) ∧
    (cxEVd.supportsV2G = true →
      (cxEVd.dischargeToGrid 3).2 = fmin 3 ((cxEVd.batterySOC / 100) * cxEVd.batteryCapacity)) ∧
    (0 ≤ (chargeVehicle cxEVd 5).batterySOC ∧ (chargeVehicle cxEVd 5).batterySOC ≤ 100) ∧
    0 ≤ getAvailablePower .sunny EnergySource.grid 7 ∧
    (∀ (st : ChargingStation) (uID vID bID p ct : Int) (t dur : ℚ),
      (createBooking .sunny st uID vID t dur p ct).2.vehicles = st.vehicles ∧
      (cancelBooking st bID).1.vehicles = st.vehicles) :=
  soc_bounds cxEVd 3 5 7 .sunny EnergySource.grid (by decide) (by decide) (by decide)
    (by decide) (by decide) (by decide)

/-- Counterexample to C3 as stated: in `cxSt3` dock 1 carries only the Active
booking `[0,1)`, disjoint from the requested window `[5,6)`, and meets the
power and type conditions, yet it is NOT in the computed candidate set —
the code additionally requires the dock's `occupied` flag to be clear. -/
theorem specCandidates_cx :
    ((1 : Int) ∈ specCandidates .sunny cxSt3 7 5 1 false) ∧
    ((1 : Int) ∉ suitableDocks .sunny cxSt3 7 5 1 false) := by
  exact ⟨by decide, by decide⟩

/-- C3 (amended): the candidate set computed during allocation is exactly the
set of docks satisfying (a0) the dock's `occupied` flag is clear, (a) no
active booking on the dock overlaps `[effectiveStart, effectiveStart +
duration)` under the half-open test, (b) environment-adjusted available power
covers the desired rating, and (c) a Solar-bound source when solar charging
is requested; boundary-touching intervals never conflict. -/
theorem suitableDocks_characterisation (w : WeatherCondition) (st : ChargingStation)
    (p : Int) (t dur : ℚ) (sol : Bool) :
    (∀ id : Int, id ∈ suitableDocks w st p t dur sol ↔
      ∃ d ∈ st.docks, d.dockID = id ∧ d.isOccupied = false ∧
        (p : ℚ) ≤ getAvailablePower w d.energySource (d.powerRating : ℚ) ∧
        (sol = true → d.energySource = EnergySource.solar) ∧
        ∀ b ∈ st.bookings, b.isActive = true → b.dockID = id →
          ¬ intervalConflict t dur b.startTime b.duration) ∧
    (∀ s1 d1 d2 : ℚ, ¬ intervalConflict s1 d1 (s1 + d1) d2) ∧
    (∀ s1 d1 s2 d2 : ℚ, intervalConflict s1 d1 s2 d2 ↔ s1 < s2 + d2 ∧ s2 < s1 + d1) := by
  refine ⟨?_, ?_, fun s1 d1 s2 d2 => Iff.rfl⟩
  · intro id
    rw [suitableDocks_mem]
    constructor
    · rintro ⟨d, hd, hdid, hocc, hpow, hsol, hav⟩
      rw [hdid, isDockAvailable_eq_true] at hav
      exact ⟨d, hd, hdid, hocc, hpow, hsol, hav⟩
    · rintro ⟨d, hd, hdid, hocc, hpow, hsol, hav⟩
      refine ⟨d, hd, hdid, hocc, hpow, hsol, ?_⟩
      rw [hdid, isDockAvailable_eq_true]
      exact hav
  · rintro s1 d1 d2 ⟨-, h2⟩
    exact absurd h2 (lt_irrefl _)

/-- Witness for C1: completing the Slow booking of `cxSt3` on the occupied
Slow Grid dock. -/
theorem completeBooking_billing_witness :
    (completeBooking .sunny cxSt3 1).bookings =
      updateFirst (fun x => x.bookingID == 1 && x.isActive)
        (fun x =>
          { x with
              isActive := false
              energyConsumed :=
                getAvailablePower .sunny cxDock1o.energySource (cxDock1o.powerRating : ℚ) *
                  cxBk.duration
              cost :=
                (if (cxSt3.users.any fun u => u.userID == cxBk.userID && u.membershipLevel == 1) =
                    true
                 then (getAvailablePower .sunny cxDock1o.energySource
                    (cxDock1o.powerRating : ℚ) * cxBk.duration) *
                    sessionRate cxDock1o.energySource cxBk.chargingType cxBk.startTime * (85/100)
                 else (getAvailablePower .sunny cxDock1o.energySource
                    (cxDock1o.powerRating : ℚ) * cxBk.duration) *
                    sessionRate cxDock1o.energySource cxBk.chargingType cxBk.startTime) })
        cxSt3.bookings :=
  (completeBooking_billing .sunny cxSt3 1 cxBk cxDock1o rfl rfl).1

end EVCS
